import Mathlib

/-!
Verification development for the smart-alarm repository.

The definitions below are a shallow embedding of
`src/backend/local-api/services/alarm_service.py` and
`src/backend/local-api/services/iothub_service.py`.

Modelling conventions:
* Python values stored in the config dictionaries are modelled by `Value`
  (string, unbounded integer, boolean, or None), with Python truthiness
  made explicit.
* Wall-clock instants are modelled as integer seconds; `datetime.now()`
  becomes an explicit `now : Int` parameter.  `now.date()` corresponds to
  `dayStart now`, `datetime.combine` to adding the seconds-of-day offset,
  and `timedelta` arithmetic to integer arithmetic (Python datetimes do
  not overflow in the relevant range and Python ints are unbounded, so
  plain `Int` is faithful).
* `datetime.strptime(s, "%H:%M")` is modelled by `parseHM`: one or two
  digits for the hour (0..23), a literal colon, one or two digits for the
  minute (0..59), and no trailing characters, exactly as the CPython
  `_strptime` regex behaves on ASCII input.
* `strftime("%H:%M")` zero-pads both fields, modelled by `formatHM`.
* `now.isoformat()` and the `last_sync` timestamp strings are injective
  images of the instant; they are modelled by the instant itself
  (`last_check : Option Int`) and by `isoTime : Int -> String`.
-/

namespace SmartAlarm

/-- A Python/JSON value as it occurs in the config dictionaries and twin
patches: a string, an (unbounded) integer, a boolean, or `None`. -/
inductive Value where
  | vstr (s : String)
  | vint (n : Int)
  | vbool (b : Bool)
  | vnull
deriving DecidableEq, Repr

/-- Python truthiness of a `Value` (empty string, 0, False and None are
falsy). -/
def Value.truthy : Value → Bool
  | .vstr s => !s.isEmpty
  | .vint n => n != 0
  | .vbool b => b
  | .vnull => false

/-- Truthiness of an optional value (`None` when absent). -/
def optTruthy : Option Value → Bool
  | none => false
  | some v => v.truthy

/-- The numeric reading of a value where Python `timedelta(minutes=...)`
accepts it: ints and bools (bool is an int subclass); strings and None
raise `TypeError`, reported here as `none`. -/
def Value.asNum : Value → Option Int
  | .vint n => some n
  | .vbool b => some (if b then 1 else 0)
  | _ => none

/-! ## Wall-clock arithmetic -/

/-- Midnight of the day containing instant `t` (seconds). -/
def dayStart (t : Int) : Int := t - t % 86400

/-- Seconds elapsed since midnight at instant `t`; always in `[0, 86400)`. -/
def secOfDay (t : Int) : Int := t % 86400

/-! ## The "%H:%M" time-string parser and formatter -/

/-- Take at most `n` leading decimal digits from a character list,
returning the digits and the remaining characters (the `\d{1,2}` field
matching of CPython strptime). -/
def takeDigits : List Char → Nat → List Char × List Char
  | cs, 0 => ([], cs)
  | [], _ + 1 => ([], [])
  | c :: cs, n + 1 =>
    if c.isDigit then
      let r := takeDigits cs n
      (c :: r.1, r.2)
    else ([], c :: cs)

/-- Numeric value of a list of decimal digits. -/
def digitsToNat (ds : List Char) : Nat :=
  ds.foldl (fun a c => a * 10 + (c.toNat - 48)) 0

/-- `datetime.strptime(s, "%H:%M").time()`: hour 0..23 (one or two
digits), a colon, minute 0..59 (one or two digits), nothing after.
Returns `(hour, minute)` on success. -/
def parseHM (s : String) : Option (Nat × Nat) :=
  let r1 := takeDigits s.toList 2
  if r1.1.isEmpty then none
  else
    match r1.2 with
    | ':' :: rest =>
      let r2 := takeDigits rest 2
      if r2.1.isEmpty then none
      else if !r2.2.isEmpty then none
      else
        let h := digitsToNat r1.1
        let m := digitsToNat r2.1
        if h ≤ 23 ∧ m ≤ 59 then some (h, m) else none
    | _ => none

/-- Two-digit zero-padded decimal rendering of `n < 100`, as produced by
`strftime` for the `%H` and `%M` fields. -/
def pad2 (n : Nat) : String :=
  ⟨[Char.ofNat (48 + n / 10), Char.ofNat (48 + n % 10)]⟩

/-- `strftime("%H:%M")` applied to an hour and minute. -/
def formatHM (h m : Nat) : String := pad2 h ++ ":" ++ pad2 m

/-- `strftime("%H:%M")` applied to the time-of-day of instant `t`. -/
def formatTimeOfDay (t : Int) : String :=
  let sec := (secOfDay t).toNat
  formatHM (sec / 3600) (sec % 3600 / 60)

/-! ## AlarmConfig and the alarm-service operations
(`src/backend/local-api/services/alarm_service.py`) -/

/-- The module-level `alarm_config` dictionary.  `enabled` and
`window_minutes` are full `Value`s because the twin-patch handler can
store arbitrary patch values into them; `triggered` is only ever assigned
Python booleans by the code. -/
structure AlarmConfig where
  enabled : Value
  wake_time : Option Value
  window_minutes : Value
  triggered : Bool
  trigger_reason : Option String
  last_check : Option Int
deriving DecidableEq, Repr

/-- The initial `alarm_config` literal (lines 9..16 of alarm_service.py). -/
def alarmConfigInit : AlarmConfig :=
  { enabled := .vbool false, wake_time := none, window_minutes := .vint 30,
    triggered := false, trigger_reason := none, last_check := none }

/-- `set_alarm(wake_time_str, window_minutes)`: validates the time string
first; on success stores the string and the window (unmodified) and arms
the alarm; on a parse failure returns False with no mutation. -/
def setAlarm (wake_time_str : String) (window_minutes : Value)
    (s : AlarmConfig) : Bool × AlarmConfig :=
  match parseHM wake_time_str with
  | some _ =>
    (true, { s with wake_time := some (.vstr wake_time_str),
                    window_minutes := window_minutes,
                    enabled := .vbool true,
                    triggered := false,
                    trigger_reason := none })
  | none => (false, s)

/-- `disable_alarm()`. -/
def disableAlarm (s : AlarmConfig) : AlarmConfig :=
  { s with enabled := .vbool false, triggered := false, trigger_reason := none }

/-- `dismiss_alarm()`. -/
def dismissAlarm (s : AlarmConfig) : AlarmConfig :=
  { s with triggered := false, trigger_reason := none }

/-- `snooze_alarm(minutes)`: only acts while triggered; reschedules the
wake time to `now + minutes` rendered through strftime("%H:%M"). -/
def snoozeAlarm (s : AlarmConfig) (now : Int) (minutes : Int) :
    Option String × AlarmConfig :=
  if s.triggered then
    let new_wake := formatTimeOfDay (now + minutes * 60)
    (some new_wake,
     { s with triggered := false, trigger_reason := none,
              wake_time := some (.vstr new_wake) })
  else (none, s)

/-- The dictionary returned from the two trigger branches of
`check_alarm_trigger` (the `time` field is the seconds-of-day rendered by
strftime("%H:%M:%S"); the light-sleep branch additionally carries the
quality sample). -/
inductive TriggerResult where
  | wakeReached (time : Int)
  | lightSleep (time : Int) (sleep_quality : Option String)
deriving DecidableEq, Repr

/-- The `reason` string of a trigger-result dictionary. -/
def TriggerResult.reason : TriggerResult → String
  | .wakeReached _ => "Wake time reached"
  | .lightSleep _ _ => "Light sleep detected in wake window"

/-- The `sleep_quality and sleep_quality.lower() in ["fair", "poor"]`
test. -/
def qualityLight : Option String → Bool
  | none => false
  | some q => !q.isEmpty && (q.toLower == "fair" || q.toLower == "poor")

/-- The wake time parsed through strptime: only a stored string can
parse; any other stored value raises `TypeError` inside the handler try
block, reported here as `none`. -/
def parseWake : Option Value → Option (Nat × Nat)
  | some (.vstr s) => parseHM s
  | _ => none

/-- Today-instance of the wake time, rolled to tomorrow when it has
already passed (lines 62..65 of alarm_service.py). -/
def wakeDatetime (now : Int) (h m : Nat) : Int :=
  let wt := dayStart now + ((h : Int) * 3600 + (m : Int) * 60)
  if wt < now then wt + 86400 else wt

/-- The `window_start` value computed by `check_alarm_trigger` at instant
`now` (line 67), when the stored wake time parses and the stored window
is numeric. -/
def windowStartAt (s : AlarmConfig) (now : Int) : Option Int :=
  match parseWake s.wake_time, s.window_minutes.asNum with
  | some (h, m), some w => some (wakeDatetime now h m - w * 60)
  | _, _ => none

/-- `check_alarm_trigger(sleep_quality, is_light_sleep)`: returns the
trigger dictionary (or None) together with the mutated config.  A parse
or type error inside the try block is caught and yields None, with
`last_check` already written. -/
def checkAlarmTrigger (s : AlarmConfig) (now : Int)
    (sleep_quality : Option String) (is_light_sleep : Bool) :
    Option TriggerResult × AlarmConfig :=
  if !s.enabled.truthy || s.triggered then (none, s)
  else if !optTruthy s.wake_time then (none, s)
  else
    let s1 := { s with last_check := some now }
    match parseWake s.wake_time, s.window_minutes.asNum with
    | some (h, m), some w =>
      let wake_dt := wakeDatetime now h m
      let window_start := wake_dt - w * 60
      if now ≥ wake_dt then
        (some (.wakeReached (secOfDay now)),
         { s1 with triggered := true, trigger_reason := some "wake_time_reached" })
      else if window_start ≤ now ∧ now < wake_dt then
        if is_light_sleep || qualityLight sleep_quality then
          (some (.lightSleep (secOfDay now) sleep_quality),
           { s1 with triggered := true, trigger_reason := some "light_sleep_detected" })
        else (none, s1)
      else (none, s1)
    | _, _ => (none, s1)

/-- A sequence of `check_alarm_trigger` calls: each list entry is
`(now, sleep_quality, is_light_sleep)`; returns the results in order and
the final config. -/
def checkMany (s : AlarmConfig) :
    List (Int × Option String × Bool) → List (Option TriggerResult) × AlarmConfig
  | [] => ([], s)
  | (t, q, l) :: rest =>
    let r := checkAlarmTrigger s t q l
    let rs := checkMany r.2 rest
    (r.1 :: rs.1, rs.2)

/-- The dictionary returned by `get_alarm_status()`: a copy of the config
plus derived window fields.  The window fields are absent (`none`) when
the alarm is off, the wake time is missing, or the try block raised. -/
structure AlarmStatus where
  enabled : Value
  wake_time : Option Value
  window_minutes : Value
  triggered : Bool
  trigger_reason : Option String
  last_check : Option Int
  current_time : Int
  window_start : Option String
  window_end : Option String
  in_window : Option Bool
  minutes_until_wake : Option Int
deriving DecidableEq, Repr

/-- `get_alarm_status()` at instant `now` (pure, side-effect free). -/
def getAlarmStatus (s : AlarmConfig) (now : Int) : AlarmStatus :=
  let base : AlarmStatus :=
    { enabled := s.enabled, wake_time := s.wake_time,
      window_minutes := s.window_minutes, triggered := s.triggered,
      trigger_reason := s.trigger_reason, last_check := s.last_check,
      current_time := secOfDay now, window_start := none, window_end := none,
      in_window := none, minutes_until_wake := none }
  if s.enabled.truthy && optTruthy s.wake_time then
    match parseWake s.wake_time, s.window_minutes.asNum with
    | some (h, m), some w =>
      let wt0 := dayStart now + ((h : Int) * 3600 + (m : Int) * 60)
      let wake_dt := if wt0 < now && !s.triggered then wt0 + 86400 else wt0
      let window_start := wake_dt - w * 60
      { base with
        window_start := some (formatTimeOfDay window_start),
        window_end := some (formatTimeOfDay wake_dt),
        in_window := some (decide (window_start ≤ now ∧ now < wake_dt)),
        minutes_until_wake :=
          if now < wake_dt then some ((wake_dt - now) / 60) else none }
    | _, _ => base
  else base

/-! ## The twin synchronization buffer
(`src/backend/local-api/services/iothub_service.py`)

Network effects are made explicit: `clientPresent` models
`device_client` being non-None, `sendOk` models whether
`patch_twin_reported_properties` returns or raises, and each operation
additionally returns the list of property dictionaries actually handed
to the network on this call.  The MQTT block of
`report_twin_properties` never touches `_pending_report` or
`_last_report_time`; only the IoT-hub path is modelled (the behavior
with `skip_mqtt=True`). -/

/-- A Python dict of twin properties, as a key/value association list;
`d.lookup k` is dictionary lookup.  Dicts built by the code have
pairwise-distinct keys, and all statements below depend on the list only
through `lookup` and emptiness, which match dict semantics. -/
abbrev Patch := List (String × Value)

/-- `d.update(p)` at the level of lookups: keys of `p` win. -/
def pyUpdate (d p : Patch) : Patch := p ++ d

/-- Truthiness of the `_pending_report` global (None and the empty dict
are falsy). -/
def ptruthy : Option Patch → Bool
  | none => false
  | some p => !p.isEmpty

/-- Lookup through the optional pending buffer. -/
def pendingLookup : Option Patch → String → Option Value
  | none, _ => none
  | some p, k => p.lookup k

/-- The rate-limiter/buffer globals of iothub_service.py:
`_pending_report` and `_last_report_time`. -/
structure IotState where
  pending : Option Patch
  lastReportTime : Int
deriving DecidableEq, Repr

/-- `_MIN_REPORT_INTERVAL` (20 seconds). -/
def MIN_REPORT_INTERVAL : Int := 20

/-- Result of one `report_twin_properties` call: the returned boolean,
the new globals, and the dictionaries sent over the network (empty when
no successful transmission happened). -/
structure ReportOutcome where
  ret : Bool
  state : IotState
  sends : List Patch
deriving DecidableEq, Repr

/-- `report_twin_properties(properties)`, IoT-hub path (lines 386..415).
Within `_MIN_REPORT_INTERVAL` of the last successful send the call only
merges `properties` into `_pending_report` (`update`, so the new call
wins per key).  Otherwise, if the client exists, it merges any pending
buffer into the outgoing dict (the pending, older values win there),
clears the pending buffer, and attempts the send; a raise from the send
is caught with the pending buffer left cleared. -/
def reportTwinProperties (st : IotState) (now : Int) (props : Patch)
    (clientPresent : Bool) (sendOk : Bool) : ReportOutcome :=
  if now - st.lastReportTime < MIN_REPORT_INTERVAL then
    let pending1 :=
      if ptruthy st.pending then pyUpdate (st.pending.getD []) props else props
    { ret := false, state := { st with pending := some pending1 }, sends := [] }
  else if clientPresent then
    let toSend :=
      if ptruthy st.pending then pyUpdate props (st.pending.getD []) else props
    let st1 := if ptruthy st.pending then { st with pending := none } else st
    if sendOk then
      { ret := true, state := { st1 with lastReportTime := now }, sends := [toSend] }
    else
      { ret := false, state := st1, sends := [] }
  else
    { ret := false, state := st, sends := [] }

/-- One iteration of the `_keepalive_loop` flush (lines 345..354): when a
pending buffer exists and the rate limit has expired, snapshot and clear
it, then send; a raise restores the snapshot into `_pending_report`. -/
def keepaliveFlushTick (st : IotState) (now : Int)
    (clientPresent : Bool) (sendOk : Bool) : IotState × List Patch :=
  if clientPresent && ptruthy st.pending then
    if now - st.lastReportTime ≥ MIN_REPORT_INTERVAL then
      let toSend := st.pending.getD []
      if sendOk then
        ({ pending := none, lastReportTime := now }, [toSend])
      else
        ({ pending := some toSend, lastReportTime := st.lastReportTime }, [])
    else (st, [])
  else (st, [])

/-- A sequence of `report_twin_properties` calls, each tagged with its
instant; collects the (instant, dictionary) pairs of the network sends.
All calls have the client present and the network healthy. -/
def runReports (st : IotState) :
    List (Int × Patch) → IotState × List (Int × Patch)
  | [] => (st, [])
  | (t, p) :: rest =>
    let r := reportTwinProperties st t p true true
    let rec1 := runReports r.state rest
    (rec1.1, r.sends.map (fun q => (t, q)) ++ rec1.2)

/-- The per-key last-write-wins value over a sequence of patches: the
value of the latest patch in the list that wrote the key (a patch later
in the list overrides an earlier one). -/
def lastWrite : List Patch → String → Option Value
  | [], _ => none
  | p :: ps, k =>
    match lastWrite ps k with
    | some v => some v
    | none => p.lookup k

/-! ## The inbound desired-properties patch handler -/

/-- Combined mutable state touched by `on_twin_desired_properties_patch`:
the alarm config, the generic `config_store` dict, the twin buffer
globals, and the `_reporting_from_callback` loop-prevention flag. -/
structure SysState where
  alarm : AlarmConfig
  store : Patch
  iot : IotState
  reportingFromCallback : Bool
deriving DecidableEq, Repr

/-- `config_store[k] = v`. -/
def storeSet (st : Patch) (k : String) (v : Value) : Patch :=
  st.filter (fun kv => kv.1 != k) ++ [(k, v)]

/-- Python `k.startswith("$")` for the one-character prefix: the first
character of the key is a dollar sign. -/
def isMetaKey (k : String) : Bool :=
  match k.toList with
  | [] => false
  | c :: _ => c == '$'

/-- `x if x else d` for an optional incoming value against an optional
current one. -/
def pickO (o : Option Value) (d : Option Value) : Option Value :=
  if optTruthy o then o else d

/-- `x if x else d` for an optional incoming value against a mandatory
current one. -/
def pick (o : Option Value) (d : Value) : Value :=
  if optTruthy o then o.getD d else d

/-- Stand-in for `time.strftime("%Y-%m-%dT%H:%M:%SZ", time.gmtime())`:
the formatted string is an injective image of the instant (whole-second
granularity), modelled by rendering the instant. -/
def isoTime (now : Int) : String := toString now

/-- `on_twin_desired_properties_patch(patch, is_initial_sync)` (lines
94..195).  Discards empty patches and re-entrant deliveries; strips `$`
metadata keys; stores `cloud_enabled` / `monitoring_active`; applies any
of `alarm_time`, `smart_wakeup_window`, `capture_enabled`,
`alarm_enabled` into the alarm config (falsy values fall back to the
current ones, `capture_enabled` is overridden by `alarm_enabled`); and,
unless this is the initial sync, appends a `last_sync` stamp and hands
the acknowledgment dict to `report_twin_properties` with
`skip_mqtt=True`.  Returns the new state and the network sends. -/
def onTwinDesiredPropertiesPatch (s : SysState) (patch : Patch)
    (isInitialSync : Bool) (now : Int) (clientPresent : Bool) (sendOk : Bool) :
    SysState × List Patch :=
  if patch.isEmpty || s.reportingFromCallback then (s, [])
  else
    let filtered := patch.filter (fun kv => !(isMetaKey kv.1))
    if filtered.isEmpty then (s, [])
    else
      let step1 :=
        match filtered.lookup "cloud_enabled" with
        | some v => (storeSet s.store "cloud_enabled" v, [("cloud_enabled", v)])
        | none => (s.store, ([] : Patch))
      let step2 :=
        match filtered.lookup "monitoring_active" with
        | some v => (storeSet step1.1 "monitoring_active" v,
                     step1.2 ++ [("monitoring_active", v)])
        | none => step1
      let alarmTime := filtered.lookup "alarm_time"
      let alarmWindow := filtered.lookup "smart_wakeup_window"
      let alarmEnabledVar : Value :=
        match filtered.lookup "alarm_enabled" with
        | some v => v
        | none =>
          match filtered.lookup "capture_enabled" with
          | some v => v
          | none => .vnull
      let alarmChanged := alarmTime.isSome || alarmWindow.isSome ||
        (filtered.lookup "capture_enabled").isSome ||
        (filtered.lookup "alarm_enabled").isSome
      let step3 :=
        if alarmChanged then
          let newTime := pickO alarmTime s.alarm.wake_time
          let newWindow := pick alarmWindow s.alarm.window_minutes
          let newEnabled : Value :=
            if alarmEnabledVar != .vnull then alarmEnabledVar
            else if optTruthy alarmTime then .vbool true else s.alarm.enabled
          (({ s.alarm with
              wake_time := newTime
              window_minutes := newWindow
              enabled := newEnabled
              triggered := false } : AlarmConfig),
           step2.2 ++ [("alarm_enabled", newEnabled),
                       ("alarm_time", newTime.getD .vnull),
                       ("smart_wakeup_window", newWindow)])
        else (s.alarm, step2.2)
      if !step3.2.isEmpty && !isInitialSync then
        let reported := step3.2 ++ [("last_sync", .vstr (isoTime now))]
        let r := reportTwinProperties s.iot now reported clientPresent sendOk
        ({ alarm := step3.1, store := step2.1, iot := r.state,
           reportingFromCallback := false }, r.sends)
      else
        ({ alarm := step3.1, store := step2.1, iot := s.iot,
           reportingFromCallback := s.reportingFromCallback }, [])

/-! ## Shared helper lemmas -/

theorem parseHM_empty : parseHM "" = none := rfl

set_option maxRecDepth 8000 in
theorem parseHM_formatHM {h m : Nat} (hh : h ≤ 23) (hm : m ≤ 59) :
    parseHM (formatHM h m) = some (h, m) := by
  have key : ∀ a < 24, ∀ b < 60, parseHM (formatHM a b) = some (a, b) := by decide
  exact key h (by omega) m (by omega)

theorem truthy_vstr_of_parseHM {s : String} {p : Nat × Nat}
    (h : parseHM s = some p) : (Value.vstr s).truthy = true := by
  have hne : s ≠ "" := by
    intro he
    subst he
    rw [parseHM_empty] at h
    exact Option.noConfusion h
  have hie : s.isEmpty = false := by
    rw [← Bool.not_eq_true]
    intro hie
    exact hne ((String.isEmpty_iff s).mp hie)
  simp [Value.truthy, hie]

theorem secOfDay_dayStart_add (now x : Int) (hx : 0 ≤ x) (hx2 : x < 86400) :
    secOfDay (dayStart now + x) = x := by
  unfold secOfDay dayStart
  omega

theorem secOfDay_dayStart_add_day (now x : Int) (hx : 0 ≤ x) (hx2 : x < 86400) :
    secOfDay (dayStart now + x + 86400) = x := by
  unfold secOfDay dayStart
  omega

theorem formatTimeOfDay_of_secOfDay {t : Int} {h m : Nat} (hh : h ≤ 23) (hm : m ≤ 59)
    (hsec : secOfDay t = (h : Int) * 3600 + (m : Int) * 60) :
    formatTimeOfDay t = formatHM h m := by
  unfold formatTimeOfDay
  rw [hsec]
  have h1 : ((h : Int) * 3600 + (m : Int) * 60).toNat = 3600 * h + 60 * m := by omega
  rw [h1]
  have h2 : (3600 * h + 60 * m) / 3600 = h := by omega
  have h3 : (3600 * h + 60 * m) % 3600 / 60 = m := by omega
  simp only [h2, h3]

theorem checkAlarmTrigger_of_triggered (s : AlarmConfig) (now : Int)
    (sq : Option String) (il : Bool) (htr : s.triggered = true) :
    checkAlarmTrigger s now sq il = (none, s) := by
  unfold checkAlarmTrigger
  rw [htr]
  simp

/-! ## Claim theorems -/

/-- C4: for every enabled, non-triggered alarm whose stored wake time is a
parseable "HH:MM" string and whose window is numeric (the data-model
types), whenever the current time is at or past the computed
wake_datetime, check_alarm_trigger triggers with trigger_reason
wake_time_reached and returns a trigger result, for every quality sample
and light-sleep flag. -/
theorem C4_wake_time_reached (s : AlarmConfig) (now : Int) (ws : String)
    (h m : Nat) (w : Int) (sq : Option String) (il : Bool)
    (hen : s.enabled.truthy = true) (htr : s.triggered = false)
    (hwt : s.wake_time = some (.vstr ws)) (hp : parseHM ws = some (h, m))
    (hw : s.window_minutes.asNum = some w)
    (hnow : now ≥ wakeDatetime now h m) :
    checkAlarmTrigger s now sq il =
      (some (.wakeReached (secOfDay now)),
       { s with last_check := some now, triggered := true,
                trigger_reason := some "wake_time_reached" }) := by
  have htru : optTruthy s.wake_time = true := by
    rw [hwt]
    simpa [optTruthy] using truthy_vstr_of_parseHM hp
  have hpw : parseWake s.wake_time = some (h, m) := by
    rw [hwt]
    simpa [parseWake] using hp
  unfold checkAlarmTrigger
  rw [hen, htr, htru, hpw, hw]
  simp [hnow]

/-- C6: once triggered is true, every check_alarm_trigger call returns
None and leaves the config unchanged, for arbitrarily many repeated
calls; triggered stays true until dismissed, snoozed, or disabled. -/
theorem C6_triggered_latch (s : AlarmConfig) (htr : s.triggered = true) :
    (∀ now sq il, checkAlarmTrigger s now sq il = (none, s)) ∧
    (∀ inputs, checkMany s inputs = (inputs.map (fun _ => none), s)) := by
  refine ⟨fun now sq il => checkAlarmTrigger_of_triggered s now sq il htr, ?_⟩
  intro inputs
  induction inputs with
  | nil => rfl
  | cons c rest ih =>
    obtain ⟨t, q, l⟩ := c
    simp only [checkMany, checkAlarmTrigger_of_triggered s t q l htr, ih, List.map]

/-- C9: set_alarm validates only the wake-time string; for every string
the "%H:%M" parse accepts and every window value (including zero,
negative, and non-integer values), it returns True and stores the window
unmodified, and no other alarm operation validates, clamps, or rewrites
window_minutes. -/
theorem C9_window_unvalidated (t : String) (w : Value) (s : AlarmConfig)
    (p : Nat × Nat) (hp : parseHM t = some p) :
    setAlarm t w s =
      (true, { s with wake_time := some (.vstr t), window_minutes := w,
                      enabled := .vbool true, triggered := false,
                      trigger_reason := none }) ∧
    (∀ s2 now sq il, ((checkAlarmTrigger s2 now sq il).2).window_minutes = s2.window_minutes) ∧
    (∀ s2, (disableAlarm s2).window_minutes = s2.window_minutes) ∧
    (∀ s2, (dismissAlarm s2).window_minutes = s2.window_minutes) ∧
    (∀ s2 now mi, ((snoozeAlarm s2 now mi).2).window_minutes = s2.window_minutes) := by
  refine ⟨by simp [setAlarm, hp], ?_, fun s2 => rfl, fun s2 => rfl, ?_⟩
  · intro s2 now sq il
    simp only [checkAlarmTrigger]
    repeat' split
    all_goals rfl
  · intro s2 now mi
    simp only [snoozeAlarm]
    split <;> rfl

/-- C10: whenever the alarm is enabled, not triggered, and has a truthy
wake_time, check_alarm_trigger writes last_check with the current instant
even when it returns None, and on every None return every other field is
unchanged. -/
theorem C10_last_check_frame (s : AlarmConfig) (now : Int) (sq : Option String)
    (il : Bool) (hen : s.enabled.truthy = true) (htr : s.triggered = false)
    (hwt : optTruthy s.wake_time = true) :
    ((checkAlarmTrigger s now sq il).2).last_check = some now ∧
    ((checkAlarmTrigger s now sq il).1 = none →
      (checkAlarmTrigger s now sq il).2 = { s with last_check := some now }) := by
  simp only [checkAlarmTrigger, hen, htr, hwt]
  repeat' split
  all_goals simp_all

/-- Witness for C4: enabled alarm at "07:00", checked at 07:00:00 sharp
with an excellent quality sample, triggers with wake_time_reached. -/
theorem C4_wake_time_reached_witness :
    checkAlarmTrigger
      { enabled := .vbool true, wake_time := some (.vstr "07:00"),
        window_minutes := .vint 30, triggered := false,
        trigger_reason := none, last_check := none } 25200 (some "excellent") false =
      (some (.wakeReached (secOfDay 25200)),
       { enabled := .vbool true, wake_time := some (.vstr "07:00"),
         window_minutes := .vint 30, triggered := true,
         trigger_reason := some "wake_time_reached", last_check := some 25200 }) :=
  C4_wake_time_reached _ 25200 "07:00" 7 0 30 (some "excellent") false
    rfl rfl rfl (by decide) rfl (by decide)

/-- Witness for C6: a triggered config absorbs a single check and a
two-element run of checks without changing state. -/
theorem C6_triggered_latch_witness :
    checkAlarmTrigger
      { enabled := .vbool true, wake_time := some (.vstr "07:00"),
        window_minutes := .vint 30, triggered := true,
        trigger_reason := some "wake_time_reached", last_check := none } 10 none true =
      (none,
       { enabled := .vbool true, wake_time := some (.vstr "07:00"),
         window_minutes := .vint 30, triggered := true,
         trigger_reason := some "wake_time_reached", last_check := none }) ∧
    checkMany
      { enabled := .vbool true, wake_time := some (.vstr "07:00"),
        window_minutes := .vint 30, triggered := true,
        trigger_reason := some "wake_time_reached", last_check := none }
      [(1, none, false), (2, some "poor", true)] =
      ([none, none],
       { enabled := .vbool true, wake_time := some (.vstr "07:00"),
         window_minutes := .vint 30, triggered := true,
         trigger_reason := some "wake_time_reached", last_check := none }) :=
  ⟨(C6_triggered_latch _ rfl).1 10 none true,
   (C6_triggered_latch _ rfl).2 [(1, none, false), (2, some "poor", true)]⟩

/-- Witness for C9: the non-zero-padded string "7:00" is accepted and a
negative window -5 is stored unmodified. -/
theorem C9_window_unvalidated_witness :
    setAlarm "7:00" (.vint (-5)) alarmConfigInit =
      (true, { alarmConfigInit with
               wake_time := some (.vstr "7:00")
               window_minutes := .vint (-5)
               enabled := .vbool true
               triggered := false
               trigger_reason := none }) ∧
    ((checkAlarmTrigger alarmConfigInit 0 none false).2).window_minutes =
      alarmConfigInit.window_minutes :=
  ⟨(C9_window_unvalidated "7:00" (.vint (-5)) alarmConfigInit (7, 0) (by decide)).1,
   (C9_window_unvalidated "7:00" (.vint (-5)) alarmConfigInit (7, 0) (by decide)).2.1
     alarmConfigInit 0 none false⟩

/-- Witness for C10: an armed alarm checked long before its window
returns None yet records last_check, with no other field changed. -/
theorem C10_last_check_frame_witness :
    ((checkAlarmTrigger
        { enabled := .vbool true, wake_time := some (.vstr "07:00"),
          window_minutes := .vint 30, triggered := false,
          trigger_reason := none, last_check := none } 1000 none false).2).last_check =
      some 1000 ∧
    ((checkAlarmTrigger
        { enabled := .vbool true, wake_time := some (.vstr "07:00"),
          window_minutes := .vint 30, triggered := false,
          trigger_reason := none, last_check := none } 1000 none false).1 = none →
      (checkAlarmTrigger
        { enabled := .vbool true, wake_time := some (.vstr "07:00"),
          window_minutes := .vint 30, triggered := false,
          trigger_reason := none, last_check := none } 1000 none false).2 =
        { enabled := .vbool true, wake_time := some (.vstr "07:00"),
          window_minutes := .vint 30, triggered := false,
          trigger_reason := none, last_check := some 1000 }) :=
  C10_last_check_frame _ 1000 none false rfl rfl rfl

/-- C5 is refuted at a concrete input: wake_time "00:05" with the default
30-minute window, checked at 23:59:00 (now = 86340): the wake instant
(300) elapsed today, the wake datetime rolls to tomorrow (86700), yet the
computed window_start is 84900 (23:35 today), strictly in the past. -/
theorem C5_counterexample :
    parseHM "00:05" = some (0, 5) ∧
    (Value.vbool true).truthy = true ∧
    dayStart 86340 + ((0 : Int) * 3600 + (5 : Int) * 60) < 86340 ∧
    wakeDatetime 86340 0 5 = 86700 ∧
    windowStartAt
      { enabled := .vbool true, wake_time := some (.vstr "00:05"),
        window_minutes := .vint 30, triggered := false,
        trigger_reason := none, last_check := none } 86340 = some 84900 ∧
    ¬ (86340 < 84900) := by decide

/-- C5 (amended): for an enabled, non-triggered alarm whose wake instant
has already elapsed today, check_alarm_trigger rolls the wake datetime to
tomorrow and that rolled wake datetime is strictly in the future; the
computed window_start, however, is strictly in the future only iff the
window length plus the time elapsed since the missed wake instant is less
than one day (86400 s) — so it can lie in the past. -/
theorem C5_roll_future (s : AlarmConfig) (now : Int) (ws : String)
    (h m : Nat) (w : Int)
    (hwt : s.wake_time = some (.vstr ws)) (hp : parseHM ws = some (h, m))
    (hw : s.window_minutes.asNum = some w)
    (helapsed : dayStart now + ((h : Int) * 3600 + (m : Int) * 60) < now) :
    wakeDatetime now h m = dayStart now + ((h : Int) * 3600 + (m : Int) * 60) + 86400 ∧
    now < wakeDatetime now h m ∧
    windowStartAt s now = some (wakeDatetime now h m - w * 60) ∧
    (now < wakeDatetime now h m - w * 60 ↔
      w * 60 + (now - (dayStart now + ((h : Int) * 3600 + (m : Int) * 60))) < 86400) := by
  have hroll : wakeDatetime now h m =
      dayStart now + ((h : Int) * 3600 + (m : Int) * 60) + 86400 := by
    unfold wakeDatetime
    rw [if_pos helapsed]
  have hfut : now < wakeDatetime now h m := by
    rw [hroll]
    unfold dayStart
    omega
  refine ⟨hroll, hfut, ?_, ?_⟩
  · unfold windowStartAt
    rw [hwt]
    simp [parseWake, hp, hw]
  · rw [hroll]
    constructor <;> intro hc <;> omega

/-- Witness for the amended C5 at wake "06:30", window 45, now = 30000
(08:20, past the wake instant 23400). -/
theorem C5_roll_future_witness :
    wakeDatetime 30000 6 30 =
      dayStart 30000 + (((6 : Nat) : Int) * 3600 + ((30 : Nat) : Int) * 60) + 86400 ∧
    (30000 : Int) < wakeDatetime 30000 6 30 ∧
    windowStartAt
      { enabled := .vbool true, wake_time := some (.vstr "06:30"),
        window_minutes := .vint 45, triggered := false,
        trigger_reason := none, last_check := none } 30000 =
      some (wakeDatetime 30000 6 30 - 45 * 60) ∧
    ((30000 : Int) < wakeDatetime 30000 6 30 - 45 * 60 ↔
      45 * 60 + (30000 - (dayStart 30000 +
        (((6 : Nat) : Int) * 3600 + ((30 : Nat) : Int) * 60))) < 86400) :=
  C5_roll_future _ 30000 "06:30" 6 30 45 rfl (by decide) rfl (by decide)

/-- C7: for every canonical "HH:MM" wake string (zero-padded hour 00..23
and minute 00..59, the format the spec data model prescribes) and every
integer window, set_alarm returns True and get_alarm_status then reports
window_end equal to that very string, at every instant. -/
theorem C7_set_get_roundtrip (h m : Nat) (hh : h ≤ 23) (hm : m ≤ 59)
    (w : Int) (s : AlarmConfig) (now : Int) :
    (setAlarm (formatHM h m) (.vint w) s).1 = true ∧
    (getAlarmStatus (setAlarm (formatHM h m) (.vint w) s).2 now).window_end =
      some (formatHM h m) := by
  have hp := parseHM_formatHM hh hm
  have hset : setAlarm (formatHM h m) (.vint w) s =
      (true, { s with
               wake_time := some (.vstr (formatHM h m))
               window_minutes := .vint w
               enabled := .vbool true
               triggered := false
               trigger_reason := none }) := by
    simp [setAlarm, hp]
  refine ⟨by rw [hset], ?_⟩
  rw [hset]
  have htru : optTruthy (some (Value.vstr (formatHM h m))) = true := by
    simpa [optTruthy] using truthy_vstr_of_parseHM hp
  have hX0 : (0 : Int) ≤ (h : Int) * 3600 + (m : Int) * 60 := by positivity
  have hX1 : (h : Int) * 3600 + (m : Int) * 60 < 86400 := by omega
  simp only [getAlarmStatus, Value.truthy, htru, Bool.and_self, if_true,
    parseWake, hp, Value.asNum]
  split
  · exact formatTimeOfDay_of_secOfDay hh hm
      (secOfDay_dayStart_add_day now _ hX0 hX1) ▸ rfl
  · exact formatTimeOfDay_of_secOfDay hh hm
      (secOfDay_dayStart_add now _ hX0 hX1) ▸ rfl

/-- Witness for C7 with "06:30", window 30, from the initial config, at
23:59:00. -/
theorem C7_set_get_roundtrip_witness :
    (setAlarm (formatHM 6 30) (.vint 30) alarmConfigInit).1 = true ∧
    (getAlarmStatus (setAlarm (formatHM 6 30) (.vint 30) alarmConfigInit).2 86340).window_end =
      some (formatHM 6 30) :=
  C7_set_get_roundtrip 6 30 (by decide) (by decide) 30 alarmConfigInit 86340

/-! ## Lookup helper lemmas for the twin buffer -/

theorem lookup_append_of_some {l l2 : Patch} {k : String} {v : Value}
    (h : l.lookup k = some v) : (l ++ l2).lookup k = some v := by
  induction l with
  | nil => simp [List.lookup] at h
  | cons hd tl ih =>
    rw [List.cons_append]
    rw [List.lookup] at h ⊢
    cases hkk : (k == hd.1) with
    | true => rw [hkk] at h; exact h
    | false => rw [hkk] at h; exact ih h

theorem lookup_append_of_none {l l2 : Patch} {k : String}
    (h : l.lookup k = none) : (l ++ l2).lookup k = l2.lookup k := by
  induction l with
  | nil => simp
  | cons hd tl ih =>
    rw [List.cons_append]
    rw [List.lookup] at h ⊢
    cases hkk : (k == hd.1) with
    | true => rw [hkk] at h; exact Option.noConfusion h
    | false => rw [hkk] at h; exact ih h

theorem ne_nil_of_lookup_some {l : Patch} {k : String} {v : Value}
    (h : l.lookup k = some v) : l ≠ [] := by
  intro he
  subst he
  simp [List.lookup] at h

theorem isEmpty_false_of_lookup_some {l : Patch} {k : String} {v : Value}
    (h : l.lookup k = some v) : l.isEmpty = false := by
  cases l with
  | nil => simp [List.lookup] at h
  | cons hd tl => rfl

/-- A call inside the minimum report interval only merges into the
pending buffer (queue branch of report_twin_properties). -/
theorem reportTwin_queue (st : IotState) (now : Int) (props : Patch)
    (c k : Bool) (hrl : now - st.lastReportTime < MIN_REPORT_INTERVAL) :
    reportTwinProperties st now props c k =
      { ret := false,
        state := { st with pending := some (if ptruthy st.pending then
          pyUpdate (st.pending.getD []) props else props) },
        sends := [] } := by
  unfold reportTwinProperties
  rw [if_pos hrl]

/-- A call past the minimum interval with a non-empty pending buffer and
a healthy network sends the merged dict (pending values winning) and
clears the buffer. -/
theorem reportTwin_immediate_send (st : IotState) (later : Int) (more p1 : Patch)
    (hpend : st.pending = some p1) (hpe : p1.isEmpty = false)
    (hnl : later - st.lastReportTime ≥ MIN_REPORT_INTERVAL) :
    reportTwinProperties st later more true true =
      { ret := true, state := { pending := none, lastReportTime := later },
        sends := [pyUpdate more p1] } := by
  unfold reportTwinProperties
  rw [hpend]
  rw [if_neg (by omega)]
  simp [ptruthy, hpe, pyUpdate]

/-! ## C1: buffer preservation on send failure -/

/-- C1 is refuted on the immediate report path: with a non-empty pending
buffer and the rate limit expired, a failing network send inside
report_twin_properties leaves the pending buffer cleared (None), so the
buffered key "a" is dropped with no successful transmission. -/
theorem C1_counterexample :
    ptruthy (some [("a", Value.vint 1)]) = true ∧
    reportTwinProperties
      { pending := some [("a", Value.vint 1)], lastReportTime := 0 }
      100 [("b", Value.vint 2)] true false =
      { ret := false, state := { pending := none, lastReportTime := 0 },
        sends := [] } := by decide

/-- C1 (amended): the retry-on-failure guarantee holds only on the
background flush loop: there a failed send restores the snapshot into the
pending buffer, leaves the last-report clock unchanged and transmits
nothing; on the immediate report path a failed send instead drops both
the pending buffer and the properties of the call. -/
theorem C1_flush_failure_preserves_buffer (st : IotState) (now : Int) (p : Patch)
    (hp : st.pending = some p) (hne : p ≠ [])
    (h20 : now - st.lastReportTime ≥ MIN_REPORT_INTERVAL) :
    keepaliveFlushTick st now true false =
      ({ pending := some p, lastReportTime := st.lastReportTime }, []) := by
  unfold keepaliveFlushTick
  rw [hp]
  have hpt : ptruthy (some p) = true := by
    simp [ptruthy, List.isEmpty_iff, hne]
  rw [hpt]
  simp only [Bool.and_self, if_true, if_pos h20, Option.getD]
  rfl

/-- Witness for the amended C1: a one-key buffer survives a failed flush
untouched. -/
theorem C1_flush_failure_preserves_buffer_witness :
    keepaliveFlushTick
      { pending := some [("a", Value.vint 1)], lastReportTime := 0 } 100 true false =
      ({ pending := some [("a", Value.vint 1)], lastReportTime := 0 }, []) := by
  have h := C1_flush_failure_preserves_buffer
    { pending := some [("a", Value.vint 1)], lastReportTime := 0 }
    100 [("a", Value.vint 1)] rfl (by decide) (by decide)
  simpa using h

/-! ## C2: no circuit breaker, only a minimum-interval rate limit -/

/-- C2 is refuted: the code keeps no message count and no tripped state.
In this run five report calls spaced 20 s apart all transmit — the four
sends at t = 0, 20, 40, 60 fall within one rolling minute, exceeding the
3-per-minute budget the 20 s interval is documented to enforce, and the
very next call at t = 80 still transmits instead of being skipped for a
multi-minute cooldown. -/
theorem C2_counterexample :
    (runReports { pending := none, lastReportTime := -100 }
      [(0, [("a", Value.vint 1)]), (20, [("a", Value.vint 2)]),
       (40, [("a", Value.vint 3)]), (60, [("a", Value.vint 4)]),
       (80, [("a", Value.vint 5)])]).2 =
      [(0, [("a", Value.vint 1)]), (20, [("a", Value.vint 2)]),
       (40, [("a", Value.vint 3)]), (60, [("a", Value.vint 4)]),
       (80, [("a", Value.vint 5)])] ∧
    ((runReports { pending := none, lastReportTime := -100 }
      [(0, [("a", Value.vint 1)]), (20, [("a", Value.vint 2)]),
       (40, [("a", Value.vint 3)]), (60, [("a", Value.vint 4)]),
       (80, [("a", Value.vint 5)])]).2.filter
        (fun c => decide (0 ≤ c.1 ∧ c.1 ≤ 60))).length = 4 := by decide

/-- C2 (amended): outbound sends are governed solely by the 20-second
minimum interval since the last successful send — a call inside the
interval transmits nothing and merges its properties into the pending
buffer (so they are not lost), and the next successful call after the
interval carries every buffered key's value and clears the buffer. -/
theorem C2_rate_limit_only (st : IotState) (now later : Int)
    (props more : Patch) (k : String) (v : Value)
    (hrl : now - st.lastReportTime < MIN_REPORT_INTERVAL)
    (hk : props.lookup k = some v)
    (hlater : later - st.lastReportTime ≥ MIN_REPORT_INTERVAL) :
    (reportTwinProperties st now props true true).sends = [] ∧
    (reportTwinProperties st now props true true).state.lastReportTime =
      st.lastReportTime ∧
    pendingLookup (reportTwinProperties st now props true true).state.pending k =
      some v ∧
    ((reportTwinProperties
        (reportTwinProperties st now props true true).state
        later more true true).sends.headD []).lookup k = some v ∧
    (reportTwinProperties
        (reportTwinProperties st now props true true).state
        later more true true).state.pending = none := by
  have hq := reportTwin_queue st now props true true hrl
  have hlv : (if ptruthy st.pending then
      pyUpdate (st.pending.getD []) props else props).lookup k = some v := by
    cases hpt : ptruthy st.pending with
    | true =>
      rw [if_pos rfl]
      exact lookup_append_of_some hk
    | false =>
      rw [if_neg (by simp)]
      exact hk
  have hpe := isEmpty_false_of_lookup_some hlv
  have h45 : reportTwinProperties
      (reportTwinProperties st now props true true).state later more true true =
      { ret := true, state := { pending := none, lastReportTime := later },
        sends := [pyUpdate more (if ptruthy st.pending then
          pyUpdate (st.pending.getD []) props else props)] } := by
    rw [hq]
    exact reportTwin_immediate_send _ later more _ rfl hpe hlater
  refine ⟨by rw [hq], by rw [hq], ?_, ?_, by rw [h45]⟩
  · rw [hq]
    exact hlv
  · rw [h45]
    exact lookup_append_of_some hlv

/-- Witness for the amended C2: a call at t = 5 (inside the interval) is
buffered; the next call at t = 25 sends the buffered key. -/
theorem C2_rate_limit_only_witness :
    ((reportTwinProperties
        (reportTwinProperties { pending := none, lastReportTime := 0 }
          5 [("a", Value.vint 2)] true true).state
        25 [("b", Value.vint 9)] true true).sends.headD []).lookup "a" =
      some (Value.vint 2) :=
  (C2_rate_limit_only { pending := none, lastReportTime := 0 } 5 25
    [("a", Value.vint 2)] [("b", Value.vint 9)] "a" (Value.vint 2)
    (by decide) (by decide) (by decide)).2.2.2.1

/-! ## C8: merged single send after a burst of rate-limited calls -/

theorem lastWrite_cons (q : Patch) (ps : List Patch) (k : String) :
    lastWrite (q :: ps) k =
      match lastWrite ps k with
      | some v => some v
      | none => q.lookup k := rfl

/-- One rate-limited call updates the pending buffer so that the call's
own keys win and all other keys keep their buffered value. -/
theorem pendingLookup_queue_step (st : IotState) (p : Patch) (k : String) :
    pendingLookup (some (if ptruthy st.pending then
      pyUpdate (st.pending.getD []) p else p)) k =
      match p.lookup k with
      | some v => some v
      | none => pendingLookup st.pending k := by
  cases hpt : ptruthy st.pending with
  | true =>
    rw [if_pos rfl]
    cases hlk : p.lookup k with
    | some v =>
      show (p ++ st.pending.getD []).lookup k = some v
      exact lookup_append_of_some hlk
    | none =>
      show (p ++ st.pending.getD []).lookup k = pendingLookup st.pending k
      rw [lookup_append_of_none hlk]
      cases st.pending <;> rfl
  | false =>
    rw [if_neg (by simp)]
    show p.lookup k = _
    cases hlk : p.lookup k with
    | some v => rfl
    | none =>
      cases hsp : st.pending with
      | none => rfl
      | some q =>
        rw [hsp] at hpt
        have hq0 : q = [] := by
          simpa [ptruthy, List.isEmpty_iff] using hpt
        subst hq0
        rfl

/-- During a run of calls that all fall inside the minimum report
interval, nothing is sent, the last-report clock is untouched, the
pending buffer becomes non-empty as soon as one call carries a non-empty
dict, and each key ends at the value of the latest call that wrote it,
falling back to the pre-existing buffered value. -/
theorem runReports_rate_limited (calls : List (Int × Patch)) :
    ∀ st : IotState,
      (∀ c ∈ calls, c.1 - st.lastReportTime < MIN_REPORT_INTERVAL) →
      (runReports st calls).2 = [] ∧
      (runReports st calls).1.lastReportTime = st.lastReportTime ∧
      (ptruthy (runReports st calls).1.pending =
        (ptruthy st.pending || calls.any (fun c => !c.2.isEmpty))) ∧
      (∀ k, pendingLookup (runReports st calls).1.pending k =
        match lastWrite (calls.map (fun c => c.2)) k with
        | some v => some v
        | none => pendingLookup st.pending k) := by
  induction calls with
  | nil =>
    intro st _
    exact ⟨rfl, rfl, by simp [runReports], fun k => rfl⟩
  | cons c rest ih =>
    intro st hrl
    obtain ⟨t, p⟩ := c
    have hq := reportTwin_queue st t p true true (hrl (t, p) (List.mem_cons_self _ _))
    have hih := ih { st with pending := some (if ptruthy st.pending then
        pyUpdate (st.pending.getD []) p else p) }
      (fun d hd => hrl d (List.mem_cons_of_mem _ hd))
    refine ⟨?_, ?_, ?_, ?_⟩
    · simp only [runReports, hq, List.map_nil, List.nil_append]
      exact hih.1
    · simp only [runReports, hq]
      exact hih.2.1
    · simp only [runReports, hq, List.any_cons]
      rw [hih.2.2.1]
      have hstep : ptruthy (some (if ptruthy st.pending then
          pyUpdate (st.pending.getD []) p else p)) =
          (ptruthy st.pending || !p.isEmpty) := by
        cases hpt : ptruthy st.pending with
        | true =>
          rw [if_pos rfl]
          cases hsp : st.pending with
          | none => rw [hsp] at hpt; simp [ptruthy] at hpt
          | some q =>
            rw [hsp] at hpt
            have hq0 : q ≠ [] := by
              simpa [ptruthy, List.isEmpty_iff] using hpt
            simp [ptruthy, pyUpdate, List.isEmpty_iff, List.append_eq_nil, hq0]
        | false =>
          rw [if_neg (by simp)]
          simp [ptruthy]
      rw [hstep, Bool.or_assoc]
    · intro k
      simp only [runReports, hq, List.map_cons]
      rw [hih.2.2.2 k, lastWrite_cons, pendingLookup_queue_step]
      cases p.lookup k <;> cases lastWrite (rest.map (fun c => c.2)) k <;> rfl

/-- C8: for every burst of report calls all arriving within the minimum
report interval of the last successful send, no call transmits; the next
flush tick past the interval produces exactly one network send, clears
the buffer, and that send carries, for each key, the value written by
the latest call that wrote the key, falling back to the value already
buffered before the burst (last-write-wins with the pre-existing buffer
as oldest writer). -/
theorem C8_merged_single_send (st : IotState) (calls : List (Int × Patch)) (T : Int)
    (hrl : ∀ c ∈ calls, c.1 - st.lastReportTime < MIN_REPORT_INTERVAL)
    (hne : calls ≠ []) (hpne : ∀ c ∈ calls, c.2 ≠ ([] : Patch))
    (hT : T - st.lastReportTime ≥ MIN_REPORT_INTERVAL) :
    (runReports st calls).2 = [] ∧
    (keepaliveFlushTick (runReports st calls).1 T true true).2.length = 1 ∧
    (keepaliveFlushTick (runReports st calls).1 T true true).1.pending = none ∧
    (∀ k, ((keepaliveFlushTick (runReports st calls).1 T true true).2.headD []).lookup k =
      match lastWrite (calls.map (fun c => c.2)) k with
      | some v => some v
      | none => pendingLookup st.pending k) := by
  obtain ⟨hsends, hlast, htruthy, hlook⟩ := runReports_rate_limited calls st hrl
  have hpt : ptruthy (runReports st calls).1.pending = true := by
    rw [htruthy]
    obtain ⟨c, cs, rfl⟩ := List.exists_cons_of_ne_nil hne
    simp [List.any_cons, List.isEmpty_iff, hpne c (List.mem_cons_self _ _)]
  cases hp : (runReports st calls).1.pending with
  | none => rw [hp] at hpt; simp [ptruthy] at hpt
  | some P =>
    rw [hp] at hpt hlook
    have hflush : keepaliveFlushTick (runReports st calls).1 T true true =
        ({ pending := none, lastReportTime := T }, [P]) := by
      unfold keepaliveFlushTick
      rw [hp, hpt]
      simp only [Bool.and_self, if_true]
      have hT2 : T - (runReports st calls).1.lastReportTime ≥ MIN_REPORT_INTERVAL := by
        rw [hlast]; exact hT
      rw [if_pos hT2]
      rfl
    refine ⟨hsends, by rw [hflush]; rfl, by rw [hflush], ?_⟩
    intro k
    rw [hflush]
    exact hlook k

/-- Witness for C8: buffer holding a stale value of key a, two calls in
the interval rewriting a and b; the flush at T = 30 sends once, with the
latest per-key values. -/
theorem C8_merged_single_send_witness :
    (runReports { pending := some [("a", Value.vint 0)], lastReportTime := 0 }
      [(5, [("a", Value.vint 2), ("b", Value.vint 3)]), (10, [("b", Value.vint 4)])]).2 = [] ∧
    (keepaliveFlushTick
      (runReports { pending := some [("a", Value.vint 0)], lastReportTime := 0 }
        [(5, [("a", Value.vint 2), ("b", Value.vint 3)]), (10, [("b", Value.vint 4)])]).1
      30 true true).2.length = 1 ∧
    ((keepaliveFlushTick
      (runReports { pending := some [("a", Value.vint 0)], lastReportTime := 0 }
        [(5, [("a", Value.vint 2), ("b", Value.vint 3)]), (10, [("b", Value.vint 4)])]).1
      30 true true).2.headD []).lookup "b" =
      match lastWrite ([(5, [("a", Value.vint 2), ("b", Value.vint 3)]),
        (10, [("b", Value.vint 4)])].map (fun c => c.2)) "b" with
      | some v => some v
      | none => pendingLookup (some [("a", Value.vint 0)]) "b" := by
  have h := C8_merged_single_send
    { pending := some [("a", Value.vint 0)], lastReportTime := 0 }
    [(5, [("a", Value.vint 2), ("b", Value.vint 3)]), (10, [("b", Value.vint 4)])]
    30 (by decide) (by decide) (by decide) (by decide)
  exact ⟨h.1, h.2.1, h.2.2.2 "b"⟩

/-! ## C3: inbound patch application is not idempotent in traffic -/

/-- C3 is refuted at the spec scenario itself: from a fresh state,
applying the patch {alarm_time: "06:30", smart_wakeup_window: 15} once
flushes an acknowledgment (pending buffer empty afterwards); re-delivering
the identical patch 10 s later leaves the local alarm state unchanged but
enqueues the same acknowledgment again — the outbound buffer gains
entries, not zero. -/
theorem C3_counterexample :
    (onTwinDesiredPropertiesPatch
      ⟨alarmConfigInit, [], ⟨none, 0⟩, false⟩
      [("alarm_time", Value.vstr "06:30"), ("smart_wakeup_window", Value.vint 15)]
      false 100 true true).1.iot.pending = none ∧
    ptruthy
      (onTwinDesiredPropertiesPatch
        (onTwinDesiredPropertiesPatch
          ⟨alarmConfigInit, [], ⟨none, 0⟩, false⟩
          [("alarm_time", Value.vstr "06:30"), ("smart_wakeup_window", Value.vint 15)]
          false 100 true true).1
        [("alarm_time", Value.vstr "06:30"), ("smart_wakeup_window", Value.vint 15)]
        false 110 true true).1.iot.pending = true ∧
    (onTwinDesiredPropertiesPatch
        (onTwinDesiredPropertiesPatch
          ⟨alarmConfigInit, [], ⟨none, 0⟩, false⟩
          [("alarm_time", Value.vstr "06:30"), ("smart_wakeup_window", Value.vint 15)]
          false 100 true true).1
        [("alarm_time", Value.vstr "06:30"), ("smart_wakeup_window", Value.vint 15)]
        false 110 true true).1.alarm =
      (onTwinDesiredPropertiesPatch
        ⟨alarmConfigInit, [], ⟨none, 0⟩, false⟩
        [("alarm_time", Value.vstr "06:30"), ("smart_wakeup_window", Value.vint 15)]
        false 100 true true).1.alarm := by decide

/-- Evaluation of the patch handler on a scenario-shaped patch
{alarm_time: a, smart_wakeup_window: n} with a truthy: the alarm config
is rewritten and armed unconditionally — no comparison against the
current local values — and the acknowledgment dict (with a last_sync
stamp) is handed to report_twin_properties. -/
theorem onTwinPatch_shape (s : SysState) (a : String) (n : Int) (t : Int)
    (c k : Bool) (hflag : s.reportingFromCallback = false)
    (ha : a ≠ "") (hn : n ≠ 0) :
    onTwinDesiredPropertiesPatch s
      [("alarm_time", .vstr a), ("smart_wakeup_window", .vint n)] false t c k =
      ({ alarm := { s.alarm with
           wake_time := some (.vstr a)
           window_minutes := .vint n
           enabled := .vbool true
           triggered := false },
         store := s.store,
         iot := (reportTwinProperties s.iot t
           [("alarm_enabled", .vbool true), ("alarm_time", .vstr a),
            ("smart_wakeup_window", .vint n), ("last_sync", .vstr (isoTime t))] c k).state,
         reportingFromCallback := false },
       (reportTwinProperties s.iot t
           [("alarm_enabled", .vbool true), ("alarm_time", .vstr a),
            ("smart_wakeup_window", .vint n), ("last_sync", .vstr (isoTime t))] c k).sends) := by
  have haE : a.isEmpty = false := by
    rw [← Bool.not_eq_true]
    intro hie
    exact ha ((String.isEmpty_iff a).mp hie)
  have hnE : (n != 0) = true := by simpa using hn
  have hfil : (([("alarm_time", Value.vstr a), ("smart_wakeup_window", Value.vint n)] :
      Patch).filter (fun kv => !(isMetaKey kv.1))) =
      [("alarm_time", Value.vstr a), ("smart_wakeup_window", Value.vint n)] := rfl
  have hcl : List.lookup "cloud_enabled"
      ([("alarm_time", Value.vstr a), ("smart_wakeup_window", Value.vint n)] : Patch) =
      none := rfl
  have hmo : List.lookup "monitoring_active"
      ([("alarm_time", Value.vstr a), ("smart_wakeup_window", Value.vint n)] : Patch) =
      none := rfl
  have hat : List.lookup "alarm_time"
      ([("alarm_time", Value.vstr a), ("smart_wakeup_window", Value.vint n)] : Patch) =
      some (Value.vstr a) := rfl
  have hsw : List.lookup "smart_wakeup_window"
      ([("alarm_time", Value.vstr a), ("smart_wakeup_window", Value.vint n)] : Patch) =
      some (Value.vint n) := rfl
  have hce : List.lookup "capture_enabled"
      ([("alarm_time", Value.vstr a), ("smart_wakeup_window", Value.vint n)] : Patch) =
      none := rfl
  have hae : List.lookup "alarm_enabled"
      ([("alarm_time", Value.vstr a), ("smart_wakeup_window", Value.vint n)] : Patch) =
      none := rfl
  simp only [onTwinDesiredPropertiesPatch, hfil, hcl, hmo, hat, hsw, hce, hae, hflag,
    pickO, pick, optTruthy, Value.truthy, haE, hnE, List.isEmpty_cons, Bool.or_false,
    Bool.not_false, if_true, if_false, Option.isSome_some, Option.isSome_none,
    Bool.true_or, Bool.or_true, bne_self_eq_false, Option.getD_some, List.nil_append]
  simp

/-- C3 (amended): the handler applies recognized keys and enqueues their
acknowledgment unconditionally, never comparing against the current local
value.  Re-delivering an identical scenario patch leaves the local alarm
config and the config store unchanged (application is idempotent on local
state), but hands the same acknowledgment to report_twin_properties
again; in particular, a rate-limited re-delivery adds the acknowledgment
to the outbound pending buffer — re-delivery produces outbound traffic,
not zero. -/
theorem C3_redelivery_reacknowledges (s : SysState) (a : String) (n : Int)
    (t1 t2 : Int) (c1 k1 c2 k2 : Bool)
    (hflag : s.reportingFromCallback = false) (ha : a ≠ "") (hn : n ≠ 0) :
    ((onTwinDesiredPropertiesPatch s
        [("alarm_time", .vstr a), ("smart_wakeup_window", .vint n)]
        false t1 c1 k1).1.alarm =
      { s.alarm with
        wake_time := some (.vstr a)
        window_minutes := .vint n
        enabled := .vbool true
        triggered := false }) ∧
    ((onTwinDesiredPropertiesPatch
        (onTwinDesiredPropertiesPatch s
          [("alarm_time", .vstr a), ("smart_wakeup_window", .vint n)]
          false t1 c1 k1).1
        [("alarm_time", .vstr a), ("smart_wakeup_window", .vint n)]
        false t2 c2 k2).1.alarm =
      (onTwinDesiredPropertiesPatch s
        [("alarm_time", .vstr a), ("smart_wakeup_window", .vint n)]
        false t1 c1 k1).1.alarm) ∧
    ((onTwinDesiredPropertiesPatch
        (onTwinDesiredPropertiesPatch s
          [("alarm_time", .vstr a), ("smart_wakeup_window", .vint n)]
          false t1 c1 k1).1
        [("alarm_time", .vstr a), ("smart_wakeup_window", .vint n)]
        false t2 c2 k2).1.store =
      (onTwinDesiredPropertiesPatch s
        [("alarm_time", .vstr a), ("smart_wakeup_window", .vint n)]
        false t1 c1 k1).1.store) ∧
    (t2 - (onTwinDesiredPropertiesPatch s
        [("alarm_time", .vstr a), ("smart_wakeup_window", .vint n)]
        false t1 c1 k1).1.iot.lastReportTime < MIN_REPORT_INTERVAL →
      ptruthy (onTwinDesiredPropertiesPatch
        (onTwinDesiredPropertiesPatch s
          [("alarm_time", .vstr a), ("smart_wakeup_window", .vint n)]
          false t1 c1 k1).1
        [("alarm_time", .vstr a), ("smart_wakeup_window", .vint n)]
        false t2 c2 k2).1.iot.pending = true) := by
  have h1 := onTwinPatch_shape s a n t1 c1 k1 hflag ha hn
  rw [h1]
  have h2 := onTwinPatch_shape
    { alarm := { s.alarm with
        wake_time := some (.vstr a)
        window_minutes := .vint n
        enabled := .vbool true
        triggered := false },
      store := s.store,
      iot := (reportTwinProperties s.iot t1
        [("alarm_enabled", .vbool true), ("alarm_time", .vstr a),
         ("smart_wakeup_window", .vint n), ("last_sync", .vstr (isoTime t1))] c1 k1).state,
      reportingFromCallback := false } a n t2 c2 k2 rfl ha hn
  rw [h2]
  refine ⟨rfl, rfl, rfl, ?_⟩
  intro hrl
  rw [reportTwin_queue _ t2 _ c2 k2 hrl]
  cases ptruthy (reportTwinProperties s.iot t1
      [("alarm_enabled", .vbool true), ("alarm_time", .vstr a),
       ("smart_wakeup_window", .vint n), ("last_sync", .vstr (isoTime t1))] c1 k1).state.pending <;>
    rfl

/-- Witness for the amended C3 at the spec scenario patch, fresh state,
deliveries at t = 100 and t = 110. -/
theorem C3_redelivery_reacknowledges_witness :
    ((onTwinDesiredPropertiesPatch ⟨alarmConfigInit, [], ⟨none, 0⟩, false⟩
        [("alarm_time", .vstr "06:30"), ("smart_wakeup_window", .vint 15)]
        false 100 true true).1.alarm =
      { alarmConfigInit with
        wake_time := some (.vstr "06:30")
        window_minutes := .vint 15
        enabled := .vbool true
        triggered := false }) ∧
    ((onTwinDesiredPropertiesPatch
        (onTwinDesiredPropertiesPatch ⟨alarmConfigInit, [], ⟨none, 0⟩, false⟩
          [("alarm_time", .vstr "06:30"), ("smart_wakeup_window", .vint 15)]
          false 100 true true).1
        [("alarm_time", .vstr "06:30"), ("smart_wakeup_window", .vint 15)]
        false 110 true true).1.alarm =
      (onTwinDesiredPropertiesPatch ⟨alarmConfigInit, [], ⟨none, 0⟩, false⟩
        [("alarm_time", .vstr "06:30"), ("smart_wakeup_window", .vint 15)]
        false 100 true true).1.alarm) ∧
    ((onTwinDesiredPropertiesPatch
        (onTwinDesiredPropertiesPatch ⟨alarmConfigInit, [], ⟨none, 0⟩, false⟩
          [("alarm_time", .vstr "06:30"), ("smart_wakeup_window", .vint 15)]
          false 100 true true).1
        [("alarm_time", .vstr "06:30"), ("smart_wakeup_window", .vint 15)]
        false 110 true true).1.store =
      (onTwinDesiredPropertiesPatch ⟨alarmConfigInit, [], ⟨none, 0⟩, false⟩
        [("alarm_time", .vstr "06:30"), ("smart_wakeup_window", .vint 15)]
        false 100 true true).1.store) ∧
    (110 - (onTwinDesiredPropertiesPatch ⟨alarmConfigInit, [], ⟨none, 0⟩, false⟩
        [("alarm_time", .vstr "06:30"), ("smart_wakeup_window", .vint 15)]
        false 100 true true).1.iot.lastReportTime < MIN_REPORT_INTERVAL →
      ptruthy (onTwinDesiredPropertiesPatch
        (onTwinDesiredPropertiesPatch ⟨alarmConfigInit, [], ⟨none, 0⟩, false⟩
          [("alarm_time", .vstr "06:30"), ("smart_wakeup_window", .vint 15)]
          false 100 true true).1
        [("alarm_time", .vstr "06:30"), ("smart_wakeup_window", .vint 15)]
        false 110 true true).1.iot.pending = true) :=
  C3_redelivery_reacknowledges ⟨alarmConfigInit, [], ⟨none, 0⟩, false⟩
    "06:30" 15 100 110 true true true true rfl (by decide) (by decide)

end SmartAlarm
